import Mathlib

/-!
# Verification of the stuber matching engine

A shallow embedding, in Lean 4, of the core of the `gripmock/stuber` gRPC
stub registry: the storage index (`storage.go`), the searcher and its unary
selection loop (`searcher.go`, function `searchCommon`), the bidirectional
streaming selector (`BidiResult.Next`), and the predicate-evaluator helpers
from `matcher.go` (`equals`, `contains`, `matches`,
`ultraFastSpecializedEquals`, `deepEqual`, `matchStreamElements`,
`rankStreamElements`).

Modelling conventions:
* Go's dynamic `any` documents are a tagged union `GoValue`; Go maps
  `map[string]any` are association lists in insertion order (Go map
  enumeration order is unspecified; the association-list order stands for
  one admissible enumeration order).
* `uuid.UUID` stub identifiers are natural numbers.  The Go code orders
  stubs by `ID.String()`; UUID strings are fixed-width lower-case hex, so
  lexicographic order on them coincides with numeric order on the ids.
* `float64` ranks and scores are modelled as rationals; the numbers the
  claims exercise are small enough that IEEE rounding does not occur, except
  where a theorem states an explicit magnitude bound.
* The pluggable deep comparator (`github.com/gripmock/deeply`) is an
  external dependency; per the spec it is abstract, so functions taking it
  receive a `Deeply` record of its four operations, exactly as the Go code
  receives it as an imported package.  Likewise Go's `fmt.Sprintf("%v")`
  (used only in the final fallback of `deepEqual`) is passed as a `sp`
  parameter.
* Go panics (index out of range) are modelled with `Option`: `none` is a
  panic.
-/

namespace Stuber

/-- Dynamic JSON-like Go value (`any`): the tags mirror the Go dynamic types
the embedded functions dispatch on.  `int` is Go's 64-bit `int`, `int32`
stands for the remaining numeric widths that neither `deepEqual` nor
`ultraFastSpecializedEquals` special-cases beyond identical-type comparison,
and `float64` carries the exact rational value of the float. -/
inductive GoValue where
  | null
  | bool (b : Bool)
  | int (n : Int)
  | int32 (n : Int)
  | int64 (n : Int)
  | float64 (q : ℚ)
  | str (s : String)
  | arr (xs : List GoValue)
  | map (kvs : List (String × GoValue))

/-- `map[string]any` as an association list. -/
abbrev GoMap := List (String × GoValue)

/-- Go map lookup `m[key]`. -/
def lookupGo : GoMap → String → Option GoValue
  | [], _ => none
  | (k, v) :: rest, key => if k = key then some v else lookupGo rest key

/-- Go map lookup for generic association lists. -/
def lookupKey {κ α : Type} [DecidableEq κ] : List (κ × α) → κ → Option α
  | [], _ => none
  | (k, v) :: rest, key => if k = key then some v else lookupKey rest key

/-- Insert-or-replace for association lists (Go map assignment `m[k] = v`):
an existing key is overwritten in place, a new key appended. -/
def updateKey {κ α : Type} [DecidableEq κ] : List (κ × α) → κ → α → List (κ × α)
  | [], key, v => [(key, v)]
  | (k, w) :: rest, key, v =>
      if k = key then (k, v) :: rest else (k, w) :: updateKey rest key v

/-- Same dynamic type check (`reflect.TypeOf(a) == reflect.TypeOf(b)`). -/
def sameGoType : GoValue → GoValue → Bool
  | .null, .null => true
  | .bool _, .bool _ => true
  | .int _, .int _ => true
  | .int32 _, .int32 _ => true
  | .int64 _, .int64 _ => true
  | .float64 _, .float64 _ => true
  | .str _, .str _ => true
  | .arr _, .arr _ => true
  | .map _, .map _ => true
  | _, _ => false

/-- Go interface equality `a == b` for the scalar (comparable) tags: equal
dynamic type and equal value; `false` across distinct tags. -/
def scalarIfaceEq : GoValue → GoValue → Bool
  | .bool x, .bool y => x = y
  | .int x, .int y => x = y
  | .int32 x, .int32 y => x = y
  | .int64 x, .int64 y => x = y
  | .float64 x, .float64 y => x = y
  | .str x, .str y => x = y
  | _, _ => false

/-- Is the value one of the directly-comparable scalar tags listed in the
type switch of `deepEqual` (src/unnamed/part_002:362)? -/
def isGoScalar : GoValue → Bool
  | .bool _ => true
  | .int _ => true
  | .int32 _ => true
  | .int64 _ => true
  | .float64 _ => true
  | .str _ => true
  | _ => false

mutual
/-- `reflect.DeepEqual` restricted to the modelled value universe: equal
only at equal dynamic type; maps compare by key set and values, slices
pointwise. -/
def reflectDeepEqual : GoValue → GoValue → Bool
  | .null, b => match b with | .null => true | _ => false
  | .bool x, b => scalarIfaceEq (.bool x) b
  | .int x, b => scalarIfaceEq (.int x) b
  | .int32 x, b => scalarIfaceEq (.int32 x) b
  | .int64 x, b => scalarIfaceEq (.int64 x) b
  | .float64 x, b => scalarIfaceEq (.float64 x) b
  | .str x, b => scalarIfaceEq (.str x) b
  | .arr xs, b =>
      match b with
      | .arr ys => xs.length = ys.length && rdeList xs ys
      | _ => false
  | .map kvs, b =>
      match b with
      | .map ys => kvs.length = ys.length && rdeMapSub kvs ys
      | _ => false

/-- Pointwise `reflect.DeepEqual` on slices. -/
def rdeList : List GoValue → List GoValue → Bool
  | [], [] => true
  | x :: xs, y :: ys => reflectDeepEqual x y && rdeList xs ys
  | _, _ => false

/-- Every key of the first map is present in the second with a
`reflect.DeepEqual` value. -/
def rdeMapSub : List (String × GoValue) → List (String × GoValue) → Bool
  | [], _ => true
  | (k, v) :: rest, ys =>
      (match lookupGo ys k with
       | none => false
       | some w => reflectDeepEqual v w) && rdeMapSub rest ys
end

mutual
/-- `deepEqual` from src/unnamed/part_002:352-403: nil checks, direct
interface comparison for comparable scalars, recursive map and slice
comparison, and a final `fmt.Sprintf("%v")` string-comparison fallback
(the formatter is the parameter `sp`). -/
def deepEqual (sp : GoValue → String) : GoValue → GoValue → Bool
  | .null, b => match b with | .null => true | _ => false
  | .bool x, b => match b with | .null => false | b => scalarIfaceEq (.bool x) b
  | .int x, b => match b with | .null => false | b => scalarIfaceEq (.int x) b
  | .int32 x, b => match b with | .null => false | b => scalarIfaceEq (.int32 x) b
  | .int64 x, b => match b with | .null => false | b => scalarIfaceEq (.int64 x) b
  | .float64 x, b => match b with | .null => false | b => scalarIfaceEq (.float64 x) b
  | .str x, b => match b with | .null => false | b => scalarIfaceEq (.str x) b
  | .map kvs, b =>
      match b with
      | .null => false
      | .map ys => kvs.length = ys.length && deMapSub sp kvs ys
      | b => sp (.map kvs) = sp b
  | .arr xs, b =>
      match b with
      | .null => false
      | .arr ys => xs.length = ys.length && deList sp xs ys
      | b => sp (.arr xs) = sp b

/-- Pointwise recursion of `deepEqual` on slices. -/
def deList (sp : GoValue → String) : List GoValue → List GoValue → Bool
  | [], [] => true
  | x :: xs, y :: ys => deepEqual sp x y && deList sp xs ys
  | _, _ => false

/-- Key-wise recursion of `deepEqual` on maps (every key of the first map
exists in the second with a `deepEqual` value). -/
def deMapSub (sp : GoValue → String) : List (String × GoValue) → List (String × GoValue) → Bool
  | [], _ => true
  | (k, v) :: rest, ys =>
      (match lookupGo ys k with
       | none => false
       | some w => deepEqual sp v w) && deMapSub sp rest ys
end

/-- `ultraFastSpecializedEquals` step 2 (src/matcher.go:210-250): numeric
cross-width comparison for `int`, `float64`, `int64`; strings and booleans
by kind; anything else falls back to `reflect.DeepEqual`.  Conversion of an
integer to `float64` is modelled exactly; theorems that rely on it carry an
explicit `2^53` magnitude bound, the range in which the Go conversion is
lossless. -/
def ultraEqStep2 : GoValue → GoValue → Bool
  | .int x, .int y => x = y
  | .int x, .float64 q => (x : ℚ) = q
  | .int x, .int64 y => x = y
  | .float64 q, .float64 p => q = p
  | .float64 q, .int y => q = (y : ℚ)
  | .float64 q, .int64 y => q = (y : ℚ)
  | .int64 x, .int64 y => x = y
  | .int64 x, .float64 q => (x : ℚ) = q
  | .int64 x, .int y => x = y
  | .str x, .str y => x = y
  | .bool x, .bool y => x = y
  | e, a => reflectDeepEqual e a

/-- `ultraFastSpecializedEquals` from src/matcher.go:182-251: a same-type
fast path for the five specialized tags, then the cross-width step. -/
def ultraFastSpecializedEquals (expected actual : GoValue) : Bool :=
  if sameGoType expected actual then
    match expected, actual with
    | .str x, .str y => x = y
    | .int x, .int y => x = y
    | .float64 x, .float64 y => x = y
    | .bool x, .bool y => x = y
    | .int64 x, .int64 y => x = y
    | e, a => ultraEqStep2 e a
  else
    ultraEqStep2 expected actual

/-- `InputData` (stub.go): one predicate group over a payload. -/
structure InputData where
  ignoreArrayOrder : Bool
  equals : GoMap
  contains : GoMap
  matchesMap : GoMap  -- source field name `Matches` (`matches` is a Lean keyword)

/-- `InputHeader` (stub.go): predicates over request metadata. -/
structure InputHeader where
  equals : GoMap
  contains : GoMap
  matchesMap : GoMap  -- source field name `Matches` (`matches` is a Lean keyword)

/-- `InputHeader.Len` (stub.go): total number of header predicates. -/
def InputHeader.len (i : InputHeader) : Nat :=
  i.equals.length + i.matchesMap.length + i.contains.length

/-- `Output` (stub.go): the canned response; carried through selection
opaquely (`Delay` is nanoseconds, `Code` the gRPC code). -/
structure Output where
  headers : List (String × String)
  data : GoMap
  stream : List GoValue
  error : String
  code : Option Nat
  delay : Int

/-- `Stub` (stub.go, current era: the variant used by `searcher.go`
part_002, with `Priority` and a `Stream` predicate list for
client-streaming; ids are UUIDs modelled as `Nat`). -/
structure Stub where
  id : Nat
  service : String
  method : String
  priority : Int
  headers : InputHeader
  input : InputData
  stream : List InputData
  output : Output

/-- `Stub.IsClientStream`: the stub carries stream predicates. -/
def Stub.isClientStream (s : Stub) : Bool := decide (0 < s.stream.length)

/-- `Stub.IsUnary`: the stub has unary input predicates. -/
def Stub.isUnary (s : Stub) : Bool :=
  decide (0 < s.input.equals.length) || decide (0 < s.input.contains.length)
    || decide (0 < s.input.matchesMap.length)

/-- `Stub.IsServerStream`: the stub has a server-stream output. -/
def Stub.isServerStream (s : Stub) : Bool := decide (0 < s.output.stream.length)

/-- The external deep comparator `github.com/gripmock/deeply`, abstract per
spec section 4.3: the four operations the engine consumes.  `rankMatch`
returns a non-negative rank (spec section 4.1). -/
structure Deeply where
  equalsIgnoreArrayOrder : List GoValue → List GoValue → Bool
  containsIgnoreArrayOrder : GoMap → GoValue → Bool
  matchesIgnoreArrayOrder : GoMap → GoValue → Bool
  rankMatch : GoMap → GoValue → ℚ

/-- One field check of `equals` (src/matcher.go:119-177): the key must
exist; with `orderIgnore` set and both sides arrays the external
order-insensitive equality is used, otherwise `ultraFastSpecializedEquals`.
The Go single-field fast path performs exactly this check, so both branches
share it. -/
def equalsFieldOK (dp : Deeply) (orderIgnore : Bool) (actualMap : GoMap)
    (kv : String × GoValue) : Bool :=
  match lookupGo actualMap kv.1 with
  | none => false
  | some av =>
    if orderIgnore then
      match kv.2, av with
      | .arr es, .arr as2 => dp.equalsIgnoreArrayOrder es as2
      | ev, av => ultraFastSpecializedEquals ev av
    else ultraFastSpecializedEquals kv.2 av

/-- `equals` (src/matcher.go:119-177): empty predicate map accepts; the
target must be a mapping and every predicate field must check. -/
def equalsFn (dp : Deeply) (expected : GoMap) (actual : GoValue)
    (orderIgnore : Bool) : Bool :=
  if expected.length = 0 then true
  else
    match actual with
    | .map am => expected.all (equalsFieldOK dp orderIgnore am)
    | _ => false

/-- `contains` (src/matcher.go:257-263): empty accepts, otherwise the
external containment check (always array-order-insensitive). -/
def containsFn (dp : Deeply) (expected : GoMap) (actual : GoValue)
    (_orderIgnore : Bool) : Bool :=
  if expected.length = 0 then true
  else dp.containsIgnoreArrayOrder expected actual

/-- `matches` (src/matcher.go:269-275): empty accepts, otherwise the
external regex check. -/
def matchesFn (dp : Deeply) (expected : GoMap) (actual : GoValue)
    (_orderIgnore : Bool) : Bool :=
  if expected.length = 0 then true
  else dp.matchesIgnoreArrayOrder expected actual

/-- `matchHeaders` (src/matcher.go:73-77). -/
def matchHeaders (dp : Deeply) (queryHeaders : GoMap) (stubHeaders : InputHeader) : Bool :=
  equalsFn dp stubHeaders.equals (.map queryHeaders) false
    && containsFn dp stubHeaders.contains (.map queryHeaders) false
    && matchesFn dp stubHeaders.matchesMap (.map queryHeaders) false

/-- `matchInput` (src/matcher.go:80-84). -/
def matchInput (dp : Deeply) (queryData : GoMap) (stubInput : InputData) : Bool :=
  equalsFn dp stubInput.equals (.map queryData) stubInput.ignoreArrayOrder
    && containsFn dp stubInput.contains (.map queryData) stubInput.ignoreArrayOrder
    && matchesFn dp stubInput.matchesMap (.map queryData) stubInput.ignoreArrayOrder

/-- `rankHeaders` (src/matcher.go:99-107): a stub with no header predicates
contributes 0. -/
def rankHeaders (dp : Deeply) (queryHeaders : GoMap) (stubHeaders : InputHeader) : ℚ :=
  if stubHeaders.len = 0 then 0
  else
    dp.rankMatch stubHeaders.equals (.map queryHeaders)
      + dp.rankMatch stubHeaders.contains (.map queryHeaders)
      + dp.rankMatch stubHeaders.matchesMap (.map queryHeaders)

/-- `rankInput` (src/matcher.go:110-114). -/
def rankInput (dp : Deeply) (queryData : GoMap) (stubInput : InputData) : ℚ :=
  dp.rankMatch stubInput.equals (.map queryData)
    + dp.rankMatch stubInput.contains (.map queryData)
    + dp.rankMatch stubInput.matchesMap (.map queryData)

/-- Effective request length (src/matcher.go:300-306 and 389-395): an empty
trailing message (the client-streaming terminator) is elided. -/
def effectiveLen (queryStream : List GoMap) : Nat :=
  match queryStream.getLast? with
  | none => 0
  | some last => if last.length = 0 then queryStream.length - 1 else queryStream.length

/-- Does an `InputData` group define any matcher at all? -/
def hasMatchers (item : InputData) : Bool :=
  decide (0 < item.equals.length) || decide (0 < item.contains.length)
    || decide (0 < item.matchesMap.length)

/-- The single-message bidi fallback of `matchStreamElements`
(src/matcher.go:310-338): the one query message may match any stub stream
item that defines matchers. -/
def matchAnyStubItem (dp : Deeply) (queryItem : GoMap) : List InputData → Bool
  | [] => false
  | item :: rest =>
    if !hasMatchers item then matchAnyStubItem dp queryItem rest
    else if 0 < item.equals.length
        && equalsFn dp item.equals (.map queryItem) item.ignoreArrayOrder then true
    else if 0 < item.contains.length
        && containsFn dp item.contains (.map queryItem) item.ignoreArrayOrder then true
    else if 0 < item.matchesMap.length
        && matchesFn dp item.matchesMap (.map queryItem) item.ignoreArrayOrder then true
    else matchAnyStubItem dp queryItem rest

/-- The positional loop of `matchStreamElements` (src/matcher.go:348-380),
running over the first `n` positions.  `none` models the Go panic when the
loop indexes past the end of `stubStream`. -/
def matchStreamLoop (dp : Deeply) : Nat → List GoMap → List InputData → Option Bool
  | 0, _, _ => some true
  | _ + 1, [], _ => none
  | _ + 1, _ :: _, [] => none
  | n + 1, q :: qs, s :: ss =>
    if !hasMatchers s then some false
    else if 0 < s.equals.length
        && !equalsFn dp s.equals (.map q) s.ignoreArrayOrder then some false
    else if 0 < s.contains.length
        && !containsFn dp s.contains (.map q) s.ignoreArrayOrder then some false
    else if 0 < s.matchesMap.length
        && !matchesFn dp s.matchesMap (.map q) s.ignoreArrayOrder then some false
    else matchStreamLoop dp n qs ss

/-- `matchStreamElements` (src/matcher.go:297-381): full-match test of a
stream-shaped request against a stream-shaped stub. -/
def matchStreamElements (dp : Deeply) (queryStream : List GoMap)
    (stubStream : List InputData) : Option Bool :=
  let effLen := effectiveLen queryStream
  if effLen = 1 ∧ 1 < stubStream.length then
    some (matchAnyStubItem dp (queryStream.headD []) stubStream)
  else if effLen = 0 ∧ 0 < stubStream.length then some false
  else matchStreamLoop dp effLen queryStream stubStream

/-- Per-position element rank of `rankStreamElements`
(src/matcher.go:453-466). -/
def elementRank (dp : Deeply) (queryItem : GoMap) (stubItem : InputData) : ℚ :=
  let equalsRank : ℚ :=
    if 0 < stubItem.equals.length then
      if equalsFn dp stubItem.equals (.map queryItem) stubItem.ignoreArrayOrder
      then 1 else 0
    else 0
  equalsRank * 100 + dp.rankMatch stubItem.contains (.map queryItem) * (1 / 10)
    + dp.rankMatch stubItem.matchesMap (.map queryItem) * (1 / 10)

/-- Count of non-nil predicate values (src/matcher.go:489-515). -/
def countNonNil (m : GoMap) : Nat :=
  (m.filter fun kv => match kv.2 with | .null => false | _ => true).length

/-- `rankStreamElements` (src/matcher.go:386-523): ranking of a
stream-shaped request against a stream-shaped stub.  When the effective
lengths differ (outside the single-message bidi fallback) it returns the
tiny non-zero rank `0.1`. -/
def rankStreamElements (dp : Deeply) (queryStream : List GoMap)
    (stubStream : List InputData) : ℚ :=
  let effLen := effectiveLen queryStream
  if effLen = 1 ∧ 1 < stubStream.length then
    let queryItem := queryStream.headD []
    let bestRank := stubStream.foldl
      (fun best item =>
        if !hasMatchers item then best
        else
          let er :=
            (if 0 < item.equals.length
                && equalsFn dp item.equals (.map queryItem) item.ignoreArrayOrder
             then (1 : ℚ) else 0) * 100
              + dp.rankMatch item.contains (.map queryItem) * (1 / 10)
              + dp.rankMatch item.matchesMap (.map queryItem) * (1 / 10)
          if best < er then er else best) 0
    bestRank + 500
  else if ¬effLen = stubStream.length then 1 / 10
  else if effLen = 0 ∧ 0 < stubStream.length then 0
  else
    let pairs := (queryStream.take effLen).zip stubStream
    let totalRank := (pairs.map fun p => elementRank dp p.1 p.2).sum
    let perfectMatches := (pairs.filter fun p =>
      let er : ℚ :=
        if 0 < p.2.equals.length then
          if equalsFn dp p.2.equals (.map p.1) p.2.ignoreArrayOrder then 1 else 0
        else 0
      decide ((99 : ℚ) / 100 < er)).length
    let lengthBonus : ℚ := (effLen : ℚ) * 10
    let perfectMatchBonus : ℚ := (perfectMatches : ℚ) * 1000
    let completeMatchBonus : ℚ :=
      if perfectMatches = effLen ∧ 0 < effLen then 10000 else 0
    let specificityBonus : ℚ :=
      ((stubStream.map fun item =>
        countNonNil item.equals + countNonNil item.contains
          + countNonNil item.matchesMap).sum : ℚ) * 50
    totalRank + lengthBonus + perfectMatchBonus + completeMatchBonus + specificityBonus

/-- `QueryV2`. Modelled from the spec: the current-era query type
(spec sections 3 and 4.5) whose declaration is not among the provided
sources; part_002 uses its `Service`, `Method`, `Headers` and `Input`
(ordered list of message documents) fields, plus the internal flag. -/
structure QueryV2 where
  id : Option Nat
  service : String
  method : String
  headers : GoMap
  input : List GoMap
  requestInternal : Bool

/-- `rankMatchV2` (src/matcher.go:279-292). -/
def rankMatchV2 (dp : Deeply) (query : QueryV2) (stub : Stub) : ℚ :=
  if stub.stream.length = 0 ∧ query.input.length = 1 then
    rankHeaders dp query.headers stub.headers
      + rankInput dp (query.input.headD []) stub.input
  else if 0 < stub.stream.length then
    rankHeaders dp query.headers stub.headers
      + rankStreamElements dp query.input stub.stream
  else rankHeaders dp query.headers stub.headers

/-! ## Storage index (src/storage.go) -/

/-- Internal index errors (src/storage.go:12-16). -/
inductive StorageErr where
  | leftNotFound
  | rightNotFound
deriving DecidableEq

/-- `pos` (src/storage.go:387-407): packs the two 64-bit ids big-endian into
one 128-bit key; as a number that is `left * 2^64 + right` after 64-bit
truncation. -/
def posKey (leftID rightID : Nat) : Nat :=
  (leftID % 2 ^ 64) * 2 ^ 64 + rightID % 2 ^ 64

/-- `storage` (src/storage.go:34-43): name interning tables, the set of
registered `(service, method)` pairs, buckets keyed by packed position, and
the global by-id map. -/
structure Storage where
  leftTotal : Nat
  rightTotal : Nat
  lefts : List (String × Nat)
  rights : List (String × Nat)
  leftRights : List (Nat × Nat)
  items : List (Nat × List (Nat × Stub))
  itemsByID : List (Nat × Stub)

/-- `newStorage` (src/storage.go:59-67). -/
def newStorage : Storage := ⟨0, 0, [], [], [], [], []⟩

/-- `leftIDOrNew` (src/storage.go:321-330). -/
def leftIDOrNew (s : Storage) (name : String) : Nat × Storage :=
  match lookupKey s.lefts name with
  | some id => (id, s)
  | none =>
      let nid := s.leftTotal + 1
      (nid, { s with leftTotal := nid, lefts := s.lefts ++ [(name, nid)] })

/-- `rightIDOrNew` (src/storage.go:348-357). -/
def rightIDOrNew (s : Storage) (name : String) : Nat × Storage :=
  match lookupKey s.rights name with
  | some id => (id, s)
  | none =>
      let nid := s.rightTotal + 1
      (nid, { s with rightTotal := nid, rights := s.rights ++ [(name, nid)] })

/-- One iteration of `upsert` (src/storage.go:214-256): intern the names,
register the pairing, and write the value into the bucket at the packed
position and into the by-id map.  No removal from any previous bucket takes
place. -/
def upsertOne (s : Storage) (v : Stub) : Storage :=
  let p1 := leftIDOrNew s v.service
  let p2 := rightIDOrNew p1.2 v.method
  let leftID := p1.1
  let rightID := p2.1
  let s2 := p2.2
  let index := posKey leftID rightID
  let bucket := (lookupKey s2.items index).getD []
  { s2 with
    leftRights :=
      if (leftID, rightID) ∈ s2.leftRights then s2.leftRights
      else s2.leftRights ++ [(leftID, rightID)]
    items := updateKey s2.items index (updateKey bucket v.id v)
    itemsByID := updateKey s2.itemsByID v.id v }

/-- `upsert` (src/storage.go:214-256) over a list of values; returns the
updated storage and the processed ids in input order. -/
def Storage.upsert (s : Storage) (values : List Stub) : Storage × List Nat :=
  values.foldl (fun acc v => (upsertOne acc.1 v, acc.2 ++ [v.id])) (s, [])

/-- `posByN` (src/storage.go:362-382): both names must be interned and the
pair registered, else `ErrLeftNotFound` / `ErrRightNotFound`. -/
def posByN (s : Storage) (leftName rightName : String) : Except StorageErr Nat :=
  match lookupKey s.lefts leftName with
  | none => .error .leftNotFound
  | some leftID =>
      match lookupKey s.rights rightName with
      | none => .error .rightNotFound
      | some rightID =>
          if (leftID, rightID) ∈ s.leftRights then .ok (posKey leftID rightID)
          else .error .rightNotFound

/-- The substring after the last `.`, when the string contains one
(`strings.LastIndex(left, ".")` and `left[dotIndex+1:]`,
src/storage.go:152-153), computed over the character list. -/
def lastDotSuffix (l : String) : Option String :=
  if '.' ∈ l.toList then
    some (String.mk ((l.toList.reverse.takeWhile fun c => c ≠ '.').reverse))
  else none

/-- `posByPN` (src/storage.go:140-174): resolve the full name, then the
dot-suffix.  When both fail, the suffix's `ErrRightNotFound` wins if it
occurred, otherwise the full form's error is returned. -/
def posByPN (s : Storage) (left right : String) : Except StorageErr (List Nat) :=
  match posByN s left right, lastDotSuffix left with
  | .ok u, none => .ok [u]
  | .error e, none => .error e
  | .ok u, some trunc =>
      (match posByN s trunc right with
       | .ok u2 => .ok [u, u2]
       | .error _ => .ok [u])
  | .error e, some trunc =>
      (match posByN s trunc right with
       | .ok u2 => .ok [u2]
       | .error .rightNotFound => .error .rightNotFound
       | .error .leftNotFound => .error e)

/-- `findAll` (src/storage.go:109-127): the values of every resolved bucket,
in bucket order. -/
def Storage.findAll (s : Storage) (left right : String) : Except StorageErr (List Stub) :=
  match posByPN s left right with
  | .error e => .error e
  | .ok indexes =>
      .ok (indexes.flatMap fun idx => ((lookupKey s.items idx).getD []).map Prod.snd)

/-- `findByID` (src/storage.go:184-189). -/
def Storage.findByID (s : Storage) (key : Nat) : Option Stub :=
  lookupKey s.itemsByID key

/-- `values` (src/storage.go:85-96). -/
def Storage.values (s : Storage) : List Stub := s.itemsByID.map Prod.snd

/-! ## Searcher and unary selection (src/unnamed/part_002, src/query.go) -/

/-- The three public error kinds (src/unnamed/part_002:16-23). -/
inductive FindError where
  | serviceNotFound
  | methodNotFound
  | stubNotFound
deriving DecidableEq

/-- `wrap` (src/unnamed/part_002:825-835): internal index errors become the
public service / method errors. -/
def wrapErr : StorageErr → FindError
  | .leftNotFound => .serviceNotFound
  | .rightNotFound => .methodNotFound

/-- `PriorityMultiplier` (src/unnamed/part_002:25-26). -/
def priorityMultiplier : ℚ := 10000

/-- `Query` (src/query.go:17-25); `requestInternal` is
`toggles.Has(RequestInternalFlag)`. -/
structure Query where
  id : Option Nat
  service : String
  method : String
  headers : GoMap
  data : GoMap
  requestInternal : Bool

/-- `toggles` (src/query.go:27-35): the derived query is internal exactly
when the `X-Gripmock-Requestinternal` header is present with any number of
values. -/
def togglesInternal (requestinternalHeaderValues : Nat) : Bool :=
  0 < requestinternalHeaderValues

/-- `match` (src/matcher.go:62-70); named `matchQuery` because `match` is a
Lean keyword. -/
def matchQuery (dp : Deeply) (query : Query) (stub : Stub) : Bool :=
  matchHeaders dp query.headers stub.headers
    && matchInput dp query.data stub.input

/-- `rankMatch` (src/matcher.go:90-96). -/
def rankMatchQuery (dp : Deeply) (query : Query) (stub : Stub) : ℚ :=
  rankHeaders dp query.headers stub.headers + rankInput dp query.data stub.input

/-- `searcher` (src/unnamed/part_002:32-38): the used-id set and the
storage. -/
structure Searcher where
  stubUsed : List Nat
  storage : Storage

/-- `newSearcher` (src/unnamed/part_002:45-50). -/
def newSearcher : Searcher := ⟨[], newStorage⟩

/-- `mark` (src/unnamed/part_002:643-655): record the id as used unless the
query is flagged internal. -/
def mark (sr : Searcher) (query : Query) (id : Nat) : Searcher :=
  if query.requestInternal then sr
  else
    { sr with
      stubUsed := if id ∈ sr.stubUsed then sr.stubUsed else sr.stubUsed ++ [id] }

/-- `searcher.findByID` (src/unnamed/part_002:441-447). -/
def Searcher.findByID (sr : Searcher) (id : Nat) : Option Stub :=
  sr.storage.findByID id

/-- `findBy` (src/unnamed/part_002:451-458): `findAll` wrapped to the public
errors; `collectStubs` (src/unnamed/part_002:778-788) merely casts each
yielded value, so the bucket enumeration is returned unchanged, without any
sorting. -/
def findBy (sr : Searcher) (service method : String) : Except FindError (List Stub) :=
  match sr.storage.findAll service method with
  | .error e => .error (wrapErr e)
  | .ok stubs => .ok stubs

/-- `sortStubsByID` (src/unnamed/part_002:405-412): ascending id (UUID
strings are fixed-width hex, so string order is numeric order). -/
def insertByID (x : Stub) : List Stub → List Stub
  | [] => [x]
  | y :: ys => if x.id ≤ y.id then x :: y :: ys else y :: insertByID x ys

/-- Insertion sort by id, the deterministic outcome of
`sort.Slice(stubs, ...ID < ID...)` on distinct ids. -/
def sortStubsByID : List Stub → List Stub
  | [] => []
  | x :: xs => insertByID x (sortStubsByID xs)

/-- The running state of the `searchCommon` walk
(src/unnamed/part_002:519-524). -/
structure SearchState where
  found : Option Stub
  foundRank : ℚ
  similar : Option Stub
  similarRank : ℚ

/-- Initial walk state: both ranks start at zero. -/
def initSearchState : SearchState := ⟨none, 0, none, 0⟩

/-- One iteration of the `searchCommon` walk (src/unnamed/part_002:546-559):
`score = rank + priority * 10000`; `similar` improves on any strictly
greater score, `found` additionally requires the match predicate. -/
def searchStep (matchF : Stub → Bool) (rankF : Stub → ℚ)
    (st : SearchState) (stub : Stub) : SearchState :=
  let current := rankF stub
  let totalRank := current + (stub.priority : ℚ) * priorityMultiplier
  let st1 :=
    if st.similarRank < totalRank then
      { st with similar := some stub, similarRank := totalRank }
    else st
  if matchF stub && decide (st1.foundRank < totalRank) then
    { st1 with found := some stub, foundRank := totalRank }
  else st1

/-- The selection outcome of a search. -/
inductive SearchOut where
  | found (s : Stub)
  | similar (s : Stub)

/-- The candidate walk of `searchCommon` (src/unnamed/part_002:531-571)
after the bucket has been fetched: sort by id, fold the scoring step, then
prefer `found`, else `similar`, else `ErrStubNotFound`. -/
def searchCandidates (stubs : List Stub) (matchF : Stub → Bool)
    (rankF : Stub → ℚ) : Except FindError SearchOut :=
  let st := (sortStubsByID stubs).foldl (searchStep matchF rankF) initSearchState
  match st.found with
  | some f => .ok (.found f)
  | none =>
      match st.similar with
      | some sim => .ok (.similar sim)
      | none => .error .stubNotFound

/-- `searchCommon` (src/unnamed/part_002:513-572): fetch candidates, walk
them, and apply the mark function when a stub is found. -/
def searchCommon (sr : Searcher) (service method : String)
    (matchF : Stub → Bool) (rankF : Stub → ℚ)
    (markF : Searcher → Nat → Searcher) : Except FindError SearchOut × Searcher :=
  match sr.storage.findAll service method with
  | .error e => (.error (wrapErr e), sr)
  | .ok stubs =>
      match searchCandidates stubs matchF rankF with
      | .ok (.found f) => (.ok (.found f), markF sr f.id)
      | out => (out, sr)

/-- `search` (src/unnamed/part_002:629-634). -/
def search (dp : Deeply) (sr : Searcher) (query : Query) :
    Except FindError SearchOut × Searcher :=
  searchCommon sr query.service query.method
    (fun stub => matchQuery dp query stub)
    (fun stub => rankMatchQuery dp query stub)
    (fun sr id => mark sr query id)

/-- `searchByID` (src/unnamed/part_002:601-619): validate that the
`(service, method)` bucket resolves, then look the id up in the global
by-id map — with no restriction to that bucket; an unknown id yields
`ErrServiceNotFound`.  (`find` only dispatches here when the query carries
an id, so the `none` branch is unreachable.) -/
def searchByID (sr : Searcher) (query : Query) :
    Except FindError SearchOut × Searcher :=
  match posByPN sr.storage query.service query.method with
  | .error e => (.error (wrapErr e), sr)
  | .ok _ =>
      match query.id with
      | some qid =>
          match sr.findByID qid with
          | some f => (.ok (.found f), mark sr query qid)
          | none => (.error .serviceNotFound, sr)
      | none => (.error .serviceNotFound, sr)

/-- `find` (src/unnamed/part_002:582-591): dispatch on the presence of an
id. -/
def find (dp : Deeply) (sr : Searcher) (query : Query) :
    Except FindError SearchOut × Searcher :=
  match query.id with
  | some _ => searchByID sr query
  | none => search dp sr query

/-! ## Bidirectional streaming selector (src/unnamed/part_002:76-311) -/

instance : Inhabited InputData := ⟨⟨false, [], [], []⟩⟩

/-- `toCamelCase` (src/unnamed/part_002:314-328). -/
def toCamelCase (s : String) : String :=
  let parts := s.splitOn "_"
  match parts with
  | [] => s
  | [_] => s
  | p0 :: rest =>
      p0 ++ String.join (rest.map fun p =>
        if 0 < p.length then (p.take 1).toUpper ++ p.drop 1 else "")

/-- `toSnakeCase` (src/unnamed/part_002:331-347): an underscore before every
upper-case rune not at position 0, then lower-case everything. -/
def toSnakeCase (s : String) : String :=
  if s = "" then ""
  else
    String.mk (s.toList.enum.flatMap fun p =>
      (if 0 < p.1 ∧ p.2.isUpper then ['_'] else []) ++ [p.2.toLower])

/-- `findValueWithVariations` (src/unnamed/part_002:292-311): literal key,
then its camelCase form, then its snake_case form. -/
def findValueWithVariations (messageData : GoMap) (key : String) : Option GoValue :=
  match lookupGo messageData key with
  | some v => some v
  | none =>
      match lookupGo messageData (toCamelCase key) with
      | some v => some v
      | none => lookupGo messageData (toSnakeCase key)

/-- `matchInputData` (src/unnamed/part_002:243-289): empty predicate groups
accept; `Equals` fields are located with name variations and compared with
`deepEqual` (actual first, expected second); `Contains`/`Matches` fields use
the literal key and a singleton predicate map. -/
def matchInputData (dp : Deeply) (sp : GoValue → String)
    (inputData : InputData) (messageData : GoMap) : Bool :=
  if !hasMatchers inputData then true
  else
    (inputData.equals.all fun kv =>
      match findValueWithVariations messageData kv.1 with
      | some av => deepEqual sp av kv.2
      | none => false)
    && (inputData.contains.all fun kv =>
      match lookupGo messageData kv.1 with
      | some av => containsFn dp [kv] av false
      | none => false)
    && (inputData.matchesMap.all fun kv =>
      match lookupGo messageData kv.1 with
      | some av => matchesFn dp [kv] av false
      | none => false)

/-- `canStubMatchPattern` (src/unnamed/part_002:201-218): client-stream
stubs survive while the message index lies inside their stream; unary and
server-stream stubs always survive as fallbacks. -/
def canStubMatchPattern (messageIndex : Nat) (stub : Stub) : Bool :=
  if stub.isClientStream then decide (messageIndex < stub.stream.length)
  else if stub.isUnary then true
  else if stub.isServerStream then true
  else false

/-- `stubMatchesCurrentMessage` (src/unnamed/part_002:221-238). -/
def stubMatchesCurrentMessage (dp : Deeply) (sp : GoValue → String)
    (messageIndex : Nat) (stub : Stub) (messageData : GoMap) : Bool :=
  if stub.isClientStream && decide (messageIndex < stub.stream.length) then
    matchInputData dp sp (stub.stream.getD messageIndex default) messageData
  else if stub.isUnary then matchInputData dp sp stub.input messageData
  else if stub.isServerStream then matchInputData dp sp stub.input messageData
  else false

/-- `BidiResult` state (src/unnamed/part_002:78-88); the searcher pointer is
kept outside the model (its only use in `Next` is the usage mark applied by
`markV2` when a stub is returned). -/
structure BidiState where
  service : String
  method : String
  headers : Option GoMap
  allStubs : List Stub
  candidateStubs : List Stub
  messageIndex : Nat
  isFirstCall : Bool

/-- Running best-candidate state of the `Next` scoring loop
(src/unnamed/part_002:151-155). -/
structure BestState where
  best : Option Stub
  bestRank : ℚ
  same : List Stub

/-- One iteration of the `Next` scoring loop
(src/unnamed/part_002:165-181): only stubs matching the current message are
scored; a strictly greater total restarts the same-rank list, an equal total
appends to it. -/
def bidiPickStep (dp : Deeply) (sp : GoValue → String) (query : QueryV2)
    (messageIndex : Nat) (msg : GoMap) (st : BestState) (stub : Stub) : BestState :=
  if stubMatchesCurrentMessage dp sp messageIndex stub msg then
    let rank := rankMatchV2 dp query stub
    let totalRank := rank + (stub.priority : ℚ) * priorityMultiplier
    if st.bestRank < totalRank then ⟨some stub, totalRank, [stub]⟩
    else if totalRank = st.bestRank then { st with same := st.same ++ [stub] }
    else st
  else st

/-- `BidiResult.Next` (src/unnamed/part_002:94-197).  `none` for the message
models a Go `nil` map; `none` in the result is `ErrStubNotFound`.  The
usage-mark side effect (`markV2`, skipped for internal queries) acts on the
searcher, not on this state. -/
def bidiNext (dp : Deeply) (sp : GoValue → String) (br : BidiState)
    (messageData : Option GoMap) : Option Stub × BidiState :=
  match messageData with
  | none => (none, br)
  | some msg =>
      if br.service = "" ∨ br.method = "" then (none, br)
      else
        let br1 :=
          match br.headers with
          | none => { br with headers := some [] }
          | some _ => br
        if br1.allStubs.length = 0 then (none, br1)
        else
          let br2 :=
            if br1.isFirstCall then
              { br1 with
                candidateStubs := br1.allStubs.filter (canStubMatchPattern 0)
                messageIndex := 0
                isFirstCall := false }
            else
              { br1 with
                messageIndex := br1.messageIndex + 1
                candidateStubs :=
                  br1.candidateStubs.filter (canStubMatchPattern (br1.messageIndex + 1)) }
          if br2.candidateStubs.length = 0 then (none, br2)
          else
            let query : QueryV2 :=
              ⟨none, br2.service, br2.method, br2.headers.getD [], [msg], false⟩
            let st := br2.candidateStubs.foldl
              (bidiPickStep dp sp query br2.messageIndex msg) ⟨none, 0, []⟩
            let best :=
              if 1 < st.same.length then (sortStubsByID st.same).head? else st.best
            match best with
            | some b => (some b, br2)
            | none => (none, br2)

/-! ## Shared fixtures and helper lemmas -/

/-- A stub with empty predicate groups and no stream: it matches any query
trivially (all three predicate maps of `matcher.go` accept when empty) and
its comparator rank is 0 (nothing to satisfy). -/
def mkStub (id : Nat) (service method : String) (priority : Int) : Stub :=
  ⟨id, service, method, priority, ⟨[], [], []⟩, ⟨false, [], [], []⟩, [],
    ⟨[], [], [], "", none, 0⟩⟩

/-- A trivial instantiation of the external comparator, used to evaluate
concrete runs whose control flow never consults the comparator (or consults
it only on empty predicate maps, where the spec fixes rank 0). -/
def trivialDeeply : Deeply :=
  ⟨fun _ _ => false, fun _ _ => false, fun _ _ => false, fun _ _ => 0⟩

/-- A trivial `fmt.Sprintf("%v")` stand-in for runs that never reach the
formatting fallback of `deepEqual`. -/
def trivialSprintf : GoValue → String := fun _ => ""

lemma lookupKey_append_some {κ α : Type} [DecidableEq κ]
    (l t : List (κ × α)) (k : κ) (x : α) (h : lookupKey l k = some x) :
    lookupKey (l ++ t) k = some x := by
  induction l with
  | nil => simp [lookupKey] at h
  | cons p rest ih =>
      obtain ⟨pk, pv⟩ := p
      by_cases hk : pk = k
      · simpa [lookupKey, hk] using h
      · simp only [lookupKey, hk, if_false, List.cons_append] at h ⊢
        exact ih h

lemma lookupKey_updateKey_self {κ α : Type} [DecidableEq κ]
    (m : List (κ × α)) (k : κ) (v : α) :
    lookupKey (updateKey m k v) k = some v := by
  induction m with
  | nil => simp [updateKey, lookupKey]
  | cons p rest ih =>
      obtain ⟨pk, pv⟩ := p
      by_cases hk : pk = k
      · simp [updateKey, lookupKey, hk]
      · simp [updateKey, lookupKey, hk, ih]

lemma lookupKey_updateKey_ne {κ α : Type} [DecidableEq κ]
    (m : List (κ × α)) (k k' : κ) (v : α) (h : k ≠ k') :
    lookupKey (updateKey m k' v) k = lookupKey m k := by
  have h2 : ¬k' = k := fun hs => h hs.symm
  induction m with
  | nil => simp [updateKey, lookupKey, h2]
  | cons p rest ih =>
      obtain ⟨pk, pv⟩ := p
      by_cases hk : pk = k'
      · subst hk
        simp [updateKey, lookupKey, h2]
      · simp [updateKey, lookupKey, hk, ih]

/-! ## Claim C9: internal queries never mutate the used set -/

/-- C9: for every query flagged internal, no find operation mutates the used
set — the searcher (in particular its `stubUsed` set) is unchanged by
`find`, on both the by-id and the payload path, even when a stub is found
(`mark` / the marking closure of `searchCommon` is skipped). -/
theorem find_internal_query_preserves_searcher
    (dp : Deeply) (sr : Searcher) (q : Query) (h : q.requestInternal = true) :
    (find dp sr q).2 = sr := by
  have hmark : ∀ id, mark sr q id = sr := by intro id; simp [mark, h]
  unfold find
  cases hq : q.id with
  | some qid =>
      unfold searchByID
      cases h1 : posByPN sr.storage q.service q.method with
      | error e => simp [h1]
      | ok l =>
          cases h2 : sr.findByID qid with
          | some f => simp [h1, hq, h2, hmark]
          | none => simp [h1, hq, h2]
  | none =>
      unfold search searchCommon
      cases h1 : sr.storage.findAll q.service q.method with
      | error e => simp [h1]
      | ok stubs =>
          cases h2 : searchCandidates stubs
              (fun stub => matchQuery dp q stub)
              (fun stub => rankMatchQuery dp q stub) with
          | error e => simp [h1, h2]
          | ok out =>
              cases out with
              | found f => simp [h1, h2, hmark]
              | similar f => simp [h1, h2]

/-- Concrete registry for the C9 witness: one stub, reachable by id. -/
def srInternal : Searcher := ⟨[], (newStorage.upsert [mkStub 1 "S" "M" 0]).1⟩

/-- Concrete internal query for the C9 witness (by-id form, which does find
the stub). -/
def qInternal : Query := ⟨some 1, "S", "M", [], [], true⟩

/-- Witness for C9: the theorem applied at a concrete internal query that
does return a found stub; the searcher (and hence the used set) is
unchanged. -/
theorem find_internal_query_preserves_searcher_witness :
    (find trivialDeeply srInternal qInternal).2 = srInternal :=
  find_internal_query_preserves_searcher trivialDeeply srInternal qInternal rfl

/-! ## Claim C10: found requires strictly positive total score -/

/-- Invariant of the `searchCommon` walk: the running found-score is
non-negative, and whenever a found stub is recorded its score is the
recorded (strictly positive) found-score. -/
def FoundInv (rf : Stub → ℚ) (st : SearchState) : Prop :=
  0 ≤ st.foundRank ∧
    ∀ s, st.found = some s →
      st.foundRank = rf s + (s.priority : ℚ) * priorityMultiplier ∧ 0 < st.foundRank

lemma foundInv_init (rf : Stub → ℚ) : FoundInv rf initSearchState := by
  refine ⟨le_refl 0, fun s hs => ?_⟩
  simp [initSearchState] at hs

/-- Each step either leaves the found pair untouched or records the current
stub with its score, strictly above the previous found-score. -/
lemma searchStep_found_cases (mf : Stub → Bool) (rf : Stub → ℚ)
    (st : SearchState) (stub : Stub) :
    ((searchStep mf rf st stub).found = st.found
      ∧ (searchStep mf rf st stub).foundRank = st.foundRank)
    ∨ ((searchStep mf rf st stub).found = some stub
      ∧ (searchStep mf rf st stub).foundRank
          = rf stub + (stub.priority : ℚ) * priorityMultiplier
      ∧ st.foundRank < (searchStep mf rf st stub).foundRank) := by
  unfold searchStep
  dsimp only
  split_ifs with h1 h2 h3 <;> simp_all

lemma foundInv_step (mf : Stub → Bool) (rf : Stub → ℚ)
    (st : SearchState) (stub : Stub) (h : FoundInv rf st) :
    FoundInv rf (searchStep mf rf st stub) := by
  rcases searchStep_found_cases mf rf st stub with ⟨he, hr⟩ | ⟨he, hr, hlt⟩
  · refine ⟨hr ▸ h.1, fun s hs => ?_⟩
    rw [he] at hs
    rcases h.2 s hs with ⟨h3, h4⟩
    exact ⟨hr ▸ h3, hr ▸ h4⟩
  · refine ⟨le_of_lt (lt_of_le_of_lt h.1 hlt), fun s hs => ?_⟩
    rw [he] at hs
    cases hs
    exact ⟨hr, lt_of_le_of_lt h.1 hlt⟩

lemma foundInv_fold (mf : Stub → Bool) (rf : Stub → ℚ)
    (l : List Stub) (st : SearchState) (h : FoundInv rf st) :
    FoundInv rf (l.foldl (searchStep mf rf) st) := by
  induction l generalizing st with
  | nil => simpa using h
  | cons x xs ih =>
      simp only [List.foldl_cons]
      exact ih _ (foundInv_step mf rf st x h)

/-- C10 (implicit): the unary payload walk returns a stub as found only when
its total score `rank + priority * 10000` is strictly positive; a matching
stub whose total score is 0 (all-empty predicates, priority 0) yields
`ErrStubNotFound` rather than a found, and a matching stub with negative
priority is skipped entirely. -/
theorem searchCandidates_found_needs_positive_score :
    (∀ (stubs : List Stub) (mf : Stub → Bool) (rf : Stub → ℚ) (s : Stub),
      searchCandidates stubs mf rf = .ok (.found s) →
      0 < rf s + (s.priority : ℚ) * priorityMultiplier)
    ∧ searchCandidates [mkStub 1 "Gripmock" "SayHello" 0]
        (fun _ => true) (fun _ => 0) = .error .stubNotFound
    ∧ searchCandidates [mkStub 1 "Gripmock" "SayHello" (-1)]
        (fun _ => true) (fun _ => 5) = .error .stubNotFound := by
  refine ⟨?_, ?_, ?_⟩
  · intro stubs mf rf s h
    unfold searchCandidates at h
    have hinv := foundInv_fold mf rf (sortStubsByID stubs) initSearchState
      (foundInv_init rf)
    simp only [] at h
    cases hfd : ((sortStubsByID stubs).foldl (searchStep mf rf) initSearchState).found with
    | some f =>
        rw [hfd] at h
        simp only [Except.ok.injEq, SearchOut.found.injEq] at h
        cases h
        have hsc := hinv.2 s hfd
        rw [← hsc.1]
        exact hsc.2
    | none =>
        rw [hfd] at h
        cases hsim : ((sortStubsByID stubs).foldl (searchStep mf rf) initSearchState).similar with
        | some f => rw [hsim] at h; simp at h
        | none => rw [hsim] at h; simp at h
  · norm_num [searchCandidates, sortStubsByID, insertByID, searchStep,
      initSearchState, priorityMultiplier, mkStub]
  · norm_num [searchCandidates, sortStubsByID, insertByID, searchStep,
      initSearchState, priorityMultiplier, mkStub]

/-- Witness for C10: the universal part applied to a concrete walk that does
find a stub (priority 1, rank 0: total score 10000 > 0). -/
theorem searchCandidates_found_needs_positive_score_witness :
    0 < (fun _ : Stub => (0 : ℚ)) (mkStub 1 "S" "M" 1)
      + ((mkStub 1 "S" "M" 1).priority : ℚ) * priorityMultiplier :=
  searchCandidates_found_needs_positive_score.1 [mkStub 1 "S" "M" 1]
    (fun _ => true) (fun _ => 0) (mkStub 1 "S" "M" 1)
    (by norm_num [searchCandidates, sortStubsByID, insertByID, searchStep,
      initSearchState, priorityMultiplier, mkStub])

/-! ## Claim C1: priority dominance in the unary selector -/

/-- Total score of a candidate in the `searchCommon` walk
(src/unnamed/part_002:547-550). -/
def scoreOf (rf : Stub → ℚ) (s : Stub) : ℚ :=
  rf s + (s.priority : ℚ) * priorityMultiplier

lemma searchStep_init_of_pos (mf : Stub → Bool) (rf : Stub → ℚ) (stub : Stub)
    (hm : mf stub = true) (hpos : 0 < scoreOf rf stub) :
    searchStep mf rf initSearchState stub =
      ⟨some stub, scoreOf rf stub, some stub, scoreOf rf stub⟩ := by
  unfold searchStep initSearchState scoreOf at *
  dsimp only
  split_ifs with h1 h2 <;> simp_all

lemma searchStep_init_of_nonpos (mf : Stub → Bool) (rf : Stub → ℚ) (stub : Stub)
    (hnp : scoreOf rf stub ≤ 0) :
    searchStep mf rf initSearchState stub = initSearchState := by
  unfold searchStep initSearchState scoreOf at *
  dsimp only
  split_ifs with h1 h2 <;> simp_all <;> linarith

lemma searchStep_stale (mf : Stub → Bool) (rf : Stub → ℚ) (stub : Stub)
    (fo si : Option Stub) (fr sr : ℚ)
    (h1 : scoreOf rf stub ≤ sr) (h2 : scoreOf rf stub ≤ fr) :
    searchStep mf rf ⟨fo, fr, si, sr⟩ stub = ⟨fo, fr, si, sr⟩ := by
  unfold searchStep scoreOf at *
  dsimp only
  split_ifs with ha hb <;> simp_all <;> linarith

lemma searchStep_takeover (mf : Stub → Bool) (rf : Stub → ℚ) (stub : Stub)
    (fo si : Option Stub) (fr sr : ℚ)
    (hm : mf stub = true) (h1 : sr < scoreOf rf stub) (h2 : fr < scoreOf rf stub) :
    searchStep mf rf ⟨fo, fr, si, sr⟩ stub =
      ⟨some stub, scoreOf rf stub, some stub, scoreOf rf stub⟩ := by
  unfold searchStep scoreOf at *
  dsimp only
  split_ifs with ha hb <;> simp_all

/-- Counterexample to C1 as stated: two stubs that both match the query,
with equal ranks (trivially inside any bounded rank band) and priorities
`-1` and `-2`.  The claim says the higher-priority stub (id 1), which also
has the greater score, is returned as found — but the walk returns nothing
at all (`ErrStubNotFound`), because a found stub additionally needs a
strictly positive total score. -/
theorem searchCandidates_priority_dominance_cex :
    searchCandidates [mkStub 1 "S" "M" (-1), mkStub 2 "S" "M" (-2)]
      (fun _ => true) (fun _ => 5) = .error .stubNotFound
    ∧ (mkStub 2 "S" "M" (-2)).priority < (mkStub 1 "S" "M" (-1)).priority := by
  constructor
  · norm_num [searchCandidates, sortStubsByID, insertByID, searchStep,
      initSearchState, priorityMultiplier, mkStub]
  · norm_num [mkStub]

/-- C1 amended: if two stubs both match the query, the one with higher
priority is chosen regardless of which has the larger rank, provided the
rank difference stays inside the priority band
(`rank(b) - rank(a) < (priority(a) - priority(b)) * 10000`) **and** the
winner's total score `rank + priority * 10000` is strictly positive (the
proviso the counterexample forces; without it nothing is found). -/
theorem searchCandidates_priority_dominance (a b : Stub) (mf : Stub → Bool) (rf : Stub → ℚ)
    (hma : mf a = true) (hmb : mf b = true)
    (hprio : b.priority < a.priority)
    (hband : rf b - rf a < ((a.priority : ℚ) - (b.priority : ℚ)) * priorityMultiplier)
    (hpos : 0 < scoreOf rf a) :
    searchCandidates [a, b] mf rf = .ok (.found a) := by
  have hsc : scoreOf rf b < scoreOf rf a := by
    have hb2 := hband
    rw [sub_mul] at hb2
    unfold scoreOf
    linarith
  unfold searchCandidates
  by_cases hid : a.id ≤ b.id
  · have hsort : sortStubsByID [a, b] = [a, b] := by
      simp [sortStubsByID, insertByID, hid]
    rw [hsort]
    simp only [List.foldl_cons, List.foldl_nil]
    rw [searchStep_init_of_pos mf rf a hma hpos,
        searchStep_stale mf rf b _ _ _ _ (le_of_lt hsc) (le_of_lt hsc)]
  · have hsort : sortStubsByID [a, b] = [b, a] := by
      simp [sortStubsByID, insertByID, hid]
    rw [hsort]
    simp only [List.foldl_cons, List.foldl_nil]
    by_cases hbp : 0 < scoreOf rf b
    · rw [searchStep_init_of_pos mf rf b hmb hbp,
          searchStep_takeover mf rf a _ _ _ _ hma hsc hsc]
    · rw [searchStep_init_of_nonpos mf rf b (le_of_not_lt hbp),
          searchStep_init_of_pos mf rf a hma hpos]

/-- Witness for the amended C1: priorities 1 vs 0, equal ranks 0; the
priority-1 stub has score 10000 > 0 and is found. -/
theorem searchCandidates_priority_dominance_witness :
    searchCandidates [mkStub 1 "S" "M" 1, mkStub 2 "S" "M" 0]
      (fun _ => true) (fun _ => 0) = .ok (.found (mkStub 1 "S" "M" 1)) :=
  searchCandidates_priority_dominance (mkStub 1 "S" "M" 1) (mkStub 2 "S" "M" 0)
    (fun _ => true) (fun _ => 0) rfl rfl
    (by norm_num [mkStub])
    (by norm_num [mkStub, priorityMultiplier])
    (by norm_num [scoreOf, mkStub, priorityMultiplier])

/-! ## Claim C2: does an upsert clear the old bucket? -/

lemma leftIDOrNew_rights (s : Storage) (n : String) :
    ((leftIDOrNew s n).2).rights = s.rights := by
  unfold leftIDOrNew
  cases lookupKey s.lefts n <;> rfl

lemma rightIDOrNew_lefts (s : Storage) (n : String) :
    ((rightIDOrNew s n).2).lefts = s.lefts := by
  unfold rightIDOrNew
  cases lookupKey s.rights n <;> rfl

lemma leftIDOrNew_leftRights (s : Storage) (n : String) :
    ((leftIDOrNew s n).2).leftRights = s.leftRights := by
  unfold leftIDOrNew
  cases lookupKey s.lefts n <;> rfl

lemma rightIDOrNew_leftRights (s : Storage) (n : String) :
    ((rightIDOrNew s n).2).leftRights = s.leftRights := by
  unfold rightIDOrNew
  cases lookupKey s.rights n <;> rfl

lemma leftIDOrNew_items (s : Storage) (n : String) :
    ((leftIDOrNew s n).2).items = s.items := by
  unfold leftIDOrNew
  cases lookupKey s.lefts n <;> rfl

lemma rightIDOrNew_items (s : Storage) (n : String) :
    ((rightIDOrNew s n).2).items = s.items := by
  unfold rightIDOrNew
  cases lookupKey s.rights n <;> rfl

lemma leftIDOrNew_lookup_some (s : Storage) (n k : String) (x : Nat)
    (h : lookupKey s.lefts k = some x) :
    lookupKey ((leftIDOrNew s n).2).lefts k = some x := by
  unfold leftIDOrNew
  cases lookupKey s.lefts n with
  | none => exact lookupKey_append_some _ _ _ _ h
  | some id => exact h

lemma rightIDOrNew_lookup_some (s : Storage) (n k : String) (x : Nat)
    (h : lookupKey s.rights k = some x) :
    lookupKey ((rightIDOrNew s n).2).rights k = some x := by
  unfold rightIDOrNew
  cases lookupKey s.rights n with
  | none => exact lookupKey_append_some _ _ _ _ h
  | some id => exact h

lemma upsertOne_lookup_lefts (s : Storage) (w : Stub) (k : String) (x : Nat)
    (h : lookupKey s.lefts k = some x) :
    lookupKey (upsertOne s w).lefts k = some x := by
  show lookupKey ((rightIDOrNew (leftIDOrNew s w.service).2 w.method).2).lefts k = some x
  rw [rightIDOrNew_lefts]
  exact leftIDOrNew_lookup_some _ _ _ _ h

lemma upsertOne_lookup_rights (s : Storage) (w : Stub) (k : String) (x : Nat)
    (h : lookupKey s.rights k = some x) :
    lookupKey (upsertOne s w).rights k = some x := by
  show lookupKey ((rightIDOrNew (leftIDOrNew s w.service).2 w.method).2).rights k = some x
  apply rightIDOrNew_lookup_some
  rw [leftIDOrNew_rights]
  exact h

lemma upsertOne_leftRights_mem (s : Storage) (w : Stub) (p : Nat × Nat)
    (h : p ∈ s.leftRights) : p ∈ (upsertOne s w).leftRights := by
  unfold upsertOne
  dsimp only
  rw [rightIDOrNew_leftRights, leftIDOrNew_leftRights]
  split_ifs
  · exact h
  · exact List.mem_append_left _ h

lemma upsertOne_items_lookup_ne (s : Storage) (w : Stub) (oldPos : Nat)
    (hne : posKey (leftIDOrNew s w.service).1
        (rightIDOrNew (leftIDOrNew s w.service).2 w.method).1 ≠ oldPos) :
    lookupKey (upsertOne s w).items oldPos = lookupKey s.items oldPos := by
  unfold upsertOne
  dsimp only
  rw [rightIDOrNew_items, leftIDOrNew_items]
  exact lookupKey_updateKey_ne _ _ _ _ (Ne.symm hne)

lemma upsertOne_findByID_self (s : Storage) (w : Stub) :
    (upsertOne s w).findByID w.id = some w := by
  unfold upsertOne Storage.findByID
  dsimp only
  exact lookupKey_updateKey_self _ _ _

lemma posByN_upsertOne (s : Storage) (w : Stub) (service method : String) (oldPos : Nat)
    (hold : posByN s service method = .ok oldPos) :
    posByN (upsertOne s w) service method = .ok oldPos := by
  unfold posByN at hold ⊢
  cases hL : lookupKey s.lefts service with
  | none => simp [hL] at hold
  | some L =>
      cases hR : lookupKey s.rights method with
      | none => simp [hL, hR] at hold
      | some R =>
          simp only [hL, hR] at hold
          by_cases hp : (L, R) ∈ s.leftRights
          · simp only [if_pos hp] at hold
            rw [upsertOne_lookup_lefts s w service L hL,
                upsertOne_lookup_rights s w method R hR]
            simp only [if_pos (upsertOne_leftRights_mem s w (L, R) hp)]
            exact hold
          · simp [if_neg hp] at hold

/-- C2 amended: an upsert that moves an existing id to a different bucket
does **not** remove it from the old bucket: `findAll` on the old
`(service, method)` pair returns exactly what it returned before the upsert
(stale entry included), while the global by-id map now holds the new stub.
(The claim as stated — old bucket cleared — is refuted by the
counterexample.) -/
theorem upsert_does_not_clear_old_bucket (s : Storage) (w : Stub)
    (service method : String) (oldPos : Nat)
    (hdot : lastDotSuffix service = none)
    (hold : posByN s service method = .ok oldPos)
    (hne : posKey (leftIDOrNew s w.service).1
        (rightIDOrNew (leftIDOrNew s w.service).2 w.method).1 ≠ oldPos) :
    (upsertOne s w).findAll service method = s.findAll service method
    ∧ (upsertOne s w).findByID w.id = some w := by
  constructor
  · unfold Storage.findAll
    have hpn := posByN_upsertOne s w service method oldPos hold
    unfold posByPN
    rw [hold, hpn, hdot]
    simp only [List.flatMap_cons, List.flatMap_nil, List.append_nil]
    rw [upsertOne_items_lookup_ne s w oldPos hne]
  · exact upsertOne_findByID_self s w

/-- Fixture: stub id 1 first registered under service `A`. -/
def stubA : Stub := mkStub 1 "A" "M" 0
/-- Fixture: the same id re-registered under service `B`. -/
def stubA2 : Stub := mkStub 1 "B" "M" 0
/-- Fixture: storage holding only `stubA`. -/
def stC2base : Storage := upsertOne newStorage stubA
/-- Fixture: storage after the service-changing upsert of the same id. -/
def stC2 : Storage := upsertOne stC2base stubA2

/-- Counterexample to C2 as stated: stub id 1 is upserted under
`("A", "M")` and then re-upserted under `("B", "M")`; `findAll("A", "M")`
still returns the old entry with that id, so the old bucket still contains
the stub. -/
theorem upsert_old_bucket_cex :
    stC2.findAll "A" "M" = .ok [stubA]
    ∧ stubA2.id = stubA.id ∧ stubA2.service ≠ stubA.service :=
  ⟨rfl, rfl, by decide⟩

/-- Witness for the amended C2, applied to the concrete two-upsert run. -/
theorem upsert_does_not_clear_old_bucket_witness :
    stC2.findAll "A" "M" = stC2base.findAll "A" "M"
    ∧ stC2.findByID stubA2.id = some stubA2 :=
  upsert_does_not_clear_old_bucket stC2base stubA2 "A" "M" (posKey 1 1)
    (by decide) rfl (by decide)

/-! ## Claim C3: error ordering of bucket resolution -/

/-- Fixture: the registry of spec property P3 — a single stub under
`("Greeter1", "SayHello1")`. -/
def stubG : Stub := mkStub 1 "Greeter1" "SayHello1" 0
/-- Fixture searcher for the error-ladder claims. -/
def srC3 : Searcher := ⟨[], upsertOne newStorage stubG⟩

/-- Counterexample to C3 as stated: querying `("x.Greeter1", "world")`
against `srC3`, the full form fails first with `ErrLeftNotFound`
(service unknown — wrapped, `ErrServiceNotFound`), and the suffix form then
fails with `ErrRightNotFound`; the code propagates the suffix's error
(`ErrMethodNotFound`), not the first error encountered. -/
theorem findBy_error_ladder_cex :
    findBy srC3 "x.Greeter1" "world" = .error .methodNotFound
    ∧ posByN srC3.storage "x.Greeter1" "world" = .error .leftNotFound
    ∧ wrapErr .leftNotFound ≠ FindError.methodNotFound :=
  ⟨rfl, rfl, by decide⟩

/-- C3 amended: error ordering of bucket resolution. (i) If neither the
service nor its dot-suffix is a known service, `ErrServiceNotFound`.
(ii) If the full form fails with right-not-found and the suffix form (when
present) also fails, `ErrMethodNotFound`.  (iii) When the full form's
service is unknown but the suffix resolves a service whose method is
missing, the **suffix's** error is propagated (`ErrMethodNotFound`), not
the first error encountered. -/
theorem findBy_error_ladder :
    (∀ (sr : Searcher) (svc mth : String),
      lookupKey sr.storage.lefts svc = none →
      (∀ t, lastDotSuffix svc = some t → lookupKey sr.storage.lefts t = none) →
      findBy sr svc mth = .error .serviceNotFound)
    ∧ (∀ (sr : Searcher) (svc mth : String),
      posByN sr.storage svc mth = .error .rightNotFound →
      (∀ t, lastDotSuffix svc = some t → ∃ e, posByN sr.storage t mth = .error e) →
      findBy sr svc mth = .error .methodNotFound)
    ∧ (∀ (sr : Searcher) (svc mth t : String),
      posByN sr.storage svc mth = .error .leftNotFound →
      lastDotSuffix svc = some t →
      posByN sr.storage t mth = .error .rightNotFound →
      findBy sr svc mth = .error .methodNotFound) := by
  refine ⟨?_, ?_, ?_⟩
  · intro sr svc mth hL hsuf
    have hfull : posByN sr.storage svc mth = .error .leftNotFound := by
      unfold posByN
      rw [hL]
    unfold findBy Storage.findAll posByPN
    cases hd : lastDotSuffix svc with
    | none => simp only [hfull, hd, wrapErr]
    | some t =>
        have ht : posByN sr.storage t mth = .error .leftNotFound := by
          unfold posByN
          rw [hsuf t hd]
        simp only [hfull, hd, ht, wrapErr]
  · intro sr svc mth hfull hsuf
    unfold findBy Storage.findAll posByPN
    cases hd : lastDotSuffix svc with
    | none => simp only [hfull, hd, wrapErr]
    | some t =>
        obtain ⟨e, he⟩ := hsuf t hd
        cases e <;> simp only [hfull, hd, he, wrapErr]
  · intro sr svc mth t hfull hd hsuf
    unfold findBy Storage.findAll posByPN
    simp only [hfull, hd, hsuf, wrapErr]

/-- Witness for the amended C3: the three clauses applied to the concrete
registry of spec property P3. -/
theorem findBy_error_ladder_witness :
    findBy srC3 "hello" "SayHello1" = .error .serviceNotFound
    ∧ findBy srC3 "Greeter1" "world" = .error .methodNotFound
    ∧ findBy srC3 "x.Greeter1" "world" = .error .methodNotFound :=
  ⟨findBy_error_ladder.1 srC3 "hello" "SayHello1" rfl
      (fun t ht => Option.noConfusion ht),
    findBy_error_ladder.2.1 srC3 "Greeter1" "world" rfl
      (fun t ht => Option.noConfusion ht),
    findBy_error_ladder.2.2 srC3 "x.Greeter1" "world" "Greeter1" rfl rfl rfl⟩

/-! ## Claims C4 and C5: findBy sorting; by-id selection -/

/-- Fixture stubs of the repository's own `TestFindBySorted`, upserted in
the order 10, 30, 20. -/
def stubP10 : Stub := mkStub 1 "Greeter1" "SayHello1" 10
def stubP30 : Stub := mkStub 2 "Greeter1" "SayHello1" 30
def stubP20 : Stub := mkStub 3 "Greeter1" "SayHello1" 20
def srC4 : Searcher := ⟨[], (newStorage.upsert [stubP10, stubP30, stubP20]).1⟩

/-- Is the list sorted by descending stub priority? -/
def sortedByPriorityDesc : List Stub → Bool
  | [] => true
  | [_] => true
  | x :: y :: rest => decide (y.priority ≤ x.priority) && sortedByPriorityDesc (y :: rest)

/-- C4: evaluation of the code at the failing input.  `findBy`
(src/unnamed/part_002:451-458) and `collectStubs` apply no sorting: the
bucket enumeration (here: insertion order 10, 30, 20, one admissible Go map
iteration order) is returned as-is and is not sorted by descending
priority — contradicting the claim, findBy's own doc comment ("sorted by
score in descending order"), and the repository's `TestFindBySorted`. -/
theorem findBy_not_sorted_by_priority :
    findBy srC4 "Greeter1" "SayHello1" = .ok [stubP10, stubP30, stubP20]
    ∧ sortedByPriorityDesc [stubP10, stubP30, stubP20] = false :=
  ⟨rfl, by decide⟩

/-- Fixture: stub id 1 in namespace `(S1, M1)`. -/
def stubS1 : Stub := mkStub 1 "S1" "M1" 0
/-- Fixture: stub id 2 in the distinct namespace `(S2, M2)`. -/
def stubS2 : Stub := mkStub 2 "S2" "M2" 0
/-- Fixture searcher holding stubs in two namespaces. -/
def srC5 : Searcher := ⟨[], (newStorage.upsert [stubS1, stubS2]).1⟩
/-- Fixture query: service/method of stub 1, but the id of stub 2. -/
def qC5 : Query := ⟨some 2, "S1", "M1", [], [], false⟩

/-- Counterexample to C5 as stated: a by-id query addressed to bucket
`(S1, M1)` with the id of a stub that lives in `(S2, M2)` returns that
foreign stub as found — id selection is not restricted to the queried
service/method namespace. -/
theorem searchByID_cross_namespace_cex :
    (find trivialDeeply srC5 qC5).1 = .ok (.found stubS2)
    ∧ stubS2.service ≠ qC5.service ∧ stubS2.method ≠ qC5.method :=
  ⟨rfl, by decide, by decide⟩

/-- C5 amended: after the `(service, method)` bucket resolves, the id is
looked up in the **global** by-id map: any live stub with that id is
returned as found regardless of its own service/method, and an unknown id
yields `ErrServiceNotFound`. -/
theorem searchByID_global_lookup :
    (∀ (dp : Deeply) (sr : Searcher) (q : Query) (qid : Nat) (stub : Stub) (idxs : List Nat),
      q.id = some qid →
      posByPN sr.storage q.service q.method = .ok idxs →
      sr.storage.findByID qid = some stub →
      (find dp sr q).1 = .ok (.found stub))
    ∧ (∀ (dp : Deeply) (sr : Searcher) (q : Query) (qid : Nat) (idxs : List Nat),
      q.id = some qid →
      posByPN sr.storage q.service q.method = .ok idxs →
      sr.storage.findByID qid = none →
      (find dp sr q).1 = .error .serviceNotFound) := by
  constructor
  · intro dp sr q qid stub idxs hqid hres hfind
    unfold find searchByID Searcher.findByID
    simp only [hqid, hres, hfind]
  · intro dp sr q qid idxs hqid hres hfind
    unfold find searchByID Searcher.findByID
    simp only [hqid, hres, hfind]

/-- Witness for the amended C5: both branches applied concretely. -/
theorem searchByID_global_lookup_witness :
    (find trivialDeeply srC5 ⟨some 1, "S1", "M1", [], [], false⟩).1
      = .ok (.found stubS1)
    ∧ (find trivialDeeply srC5 ⟨some 99, "S1", "M1", [], [], false⟩).1
      = .error .serviceNotFound :=
  ⟨searchByID_global_lookup.1 trivialDeeply srC5 _ 1 stubS1 [posKey 1 1] rfl rfl rfl,
    searchByID_global_lookup.2 trivialDeeply srC5 _ 99 [posKey 1 1] rfl rfl rfl⟩

/-! ## Claims C6, C7, C8: stream ranks, scalar equality, bidi Next guards -/

/-- Fixture: a stream item whose `Equals` expects `message = "hello"`. -/
def helloItem : InputData := ⟨false, [("message", .str "hello")], [], []⟩
/-- Fixture: a stream item whose `Equals` expects `message = "x"`. -/
def xItem : InputData := ⟨false, [("message", .str "x")], [], []⟩
/-- Fixture: the request message `{"message": "hello"}`. -/
def msgHello : GoMap := [("message", .str "hello")]

/-- Counterexample to C6 as stated: (a) a single-message request fully
matches a two-item stream (`matchStreamElements` returns `true` via the
any-item rule) although the effective lengths differ; (b) with effective
length 2 against a one-item stream, `rankStreamElements` returns the tiny
non-zero value `0.1`, not 0.  The comparator is not consulted on either
path. -/
theorem streamRank_length_mismatch_cex :
    matchStreamElements trivialDeeply [msgHello] [xItem, helloItem] = some true
    ∧ effectiveLen [msgHello] ≠ ([xItem, helloItem] : List InputData).length
    ∧ rankStreamElements trivialDeeply [msgHello, msgHello] [helloItem] = 1 / 10
    ∧ (1 : ℚ) / 10 ≠ 0 := by
  refine ⟨rfl, by decide, ?_, by norm_num⟩
  norm_num [rankStreamElements, effectiveLen, msgHello, helloItem]

/-- C6 amended: when the effective request length differs from the stream
length, and the single-message bidi fallback does not apply, the rank is
`0.1` (not 0); and a full match does not require equal lengths — a shorter
effective request whose positions all match is accepted, as is a single
message matching any item of a longer stream. -/
theorem rankStreamElements_length_mismatch :
    (∀ (dp : Deeply) (qs : List GoMap) (ss : List InputData),
      ¬(effectiveLen qs = 1 ∧ 1 < ss.length) →
      effectiveLen qs ≠ ss.length →
      rankStreamElements dp qs ss = 1 / 10)
    ∧ matchStreamElements trivialDeeply [msgHello, msgHello]
        [helloItem, helloItem, xItem] = some true := by
  constructor
  · intro dp qs ss h1 h2
    unfold rankStreamElements
    dsimp only
    rw [if_neg h1, if_pos h2]
  · rfl

/-- Witness for the amended C6 at a concrete length mismatch. -/
theorem rankStreamElements_length_mismatch_witness :
    rankStreamElements trivialDeeply [msgHello, msgHello] [helloItem] = 1 / 10 :=
  rankStreamElements_length_mismatch.1 trivialDeeply [msgHello, msgHello] [helloItem]
    (by decide) (by decide)

/-- Counterexample to C7 as stated: `deepEqual` (the scalar equality used
by the bidi predicate evaluator, src/unnamed/part_002:352-403) compares
`int 5` and `float64 5.0` — the same mathematical number in an integer and
a floating representation — as **unequal**: the direct interface comparison
`a == b` fails on distinct dynamic types and no numeric conversion is
attempted. -/
theorem deepEqual_numeric_cross_width_cex :
    deepEqual trivialSprintf (.int 5) (.float64 5) = false
    ∧ ((5 : Int) : ℚ) = (5 : ℚ) := by
  constructor
  · rfl
  · norm_num

/-- C7 amended: cross-width numeric equality by mathematical value holds
only in `ultraFastSpecializedEquals` and only among `int`, `int64` and
`float64` (exact within the `2^53` float range); strings compare only to
strings and booleans only to booleans; all other numeric width pairs (e.g.
`int32` vs `int64`) are unequal even at the same mathematical value, and
`deepEqual` rejects every cross-width pair including `int` vs `float64`. -/
theorem scalar_equality_by_kind :
    (∀ (n m : Int), ultraFastSpecializedEquals (.int n) (.int64 m) = true ↔ n = m)
    ∧ (∀ (n m : Int), ultraFastSpecializedEquals (.int64 n) (.int m) = true ↔ n = m)
    ∧ (∀ (n : Int) (q : ℚ), n.natAbs ≤ 2 ^ 53 →
        (ultraFastSpecializedEquals (.int n) (.float64 q) = true ↔ (n : ℚ) = q))
    ∧ (∀ (n : Int) (q : ℚ), n.natAbs ≤ 2 ^ 53 →
        (ultraFastSpecializedEquals (.float64 q) (.int n) = true ↔ q = (n : ℚ)))
    ∧ (∀ (s : String) (v : GoValue),
        ultraFastSpecializedEquals (.str s) v = true ↔ v = .str s)
    ∧ (∀ (b : Bool) (v : GoValue),
        ultraFastSpecializedEquals (.bool b) v = true ↔ v = .bool b)
    ∧ (∀ (n m : Int), ultraFastSpecializedEquals (.int32 n) (.int64 m) = false)
    ∧ (∀ (sp : GoValue → String) (n : Int) (q : ℚ),
        deepEqual sp (.int n) (.float64 q) = false) := by
  refine ⟨?_, ?_, ?_, ?_, ?_, ?_, ?_, ?_⟩
  · intro n m
    simp [ultraFastSpecializedEquals, ultraEqStep2, sameGoType]
  · intro n m
    simp [ultraFastSpecializedEquals, ultraEqStep2, sameGoType]
  · intro n q _
    simp [ultraFastSpecializedEquals, ultraEqStep2, sameGoType]
  · intro n q _
    simp [ultraFastSpecializedEquals, ultraEqStep2, sameGoType, eq_comm]
  · intro s v
    cases v <;>
      simp [ultraFastSpecializedEquals, ultraEqStep2, sameGoType,
        reflectDeepEqual, scalarIfaceEq, eq_comm]
  · intro b v
    cases v <;>
      simp [ultraFastSpecializedEquals, ultraEqStep2, sameGoType,
        reflectDeepEqual, scalarIfaceEq, eq_comm]
  · intro n m
    simp [ultraFastSpecializedEquals, ultraEqStep2, sameGoType,
      reflectDeepEqual, scalarIfaceEq]
  · intro sp n q
    simp [deepEqual, scalarIfaceEq]

/-- Witness for the amended C7 at concrete scalar values. -/
theorem scalar_equality_by_kind_witness :
    (ultraFastSpecializedEquals (.int 5) (.int64 5) = true ↔ (5 : Int) = 5)
    ∧ (ultraFastSpecializedEquals (.int 5) (.float64 5) = true ↔ ((5 : Int) : ℚ) = 5)
    ∧ ultraFastSpecializedEquals (.int32 5) (.int64 5) = false :=
  ⟨scalar_equality_by_kind.1 5 5,
    scalar_equality_by_kind.2.2.1 5 5 (by norm_num),
    scalar_equality_by_kind.2.2.2.2.2.2.1 5 5⟩

/-- Fixture: a client-stream stub whose single stream item has no
matchers, so it accepts any message (including an empty one). -/
def stubC8 : Stub := { mkStub 1 "S" "M" 0 with stream := [⟨false, [], [], []⟩] }
/-- Fixture: a fresh bidi handle over `stubC8`. -/
def brC8 : BidiState := ⟨"S", "M", none, [stubC8], [], 0, true⟩

/-- Counterexample to C8 as stated: `Next` rejects only a `nil` message; an
**empty** (non-nil) message is processed normally and here returns a stub
(rank 0.1 > 0), instead of the claimed `ErrStubNotFound`. -/
theorem bidiNext_empty_message_cex :
    (bidiNext trivialDeeply trivialSprintf brC8 (some [])).1 = some stubC8 := by
  norm_num [bidiNext, brC8, stubC8, mkStub, canStubMatchPattern,
    stubMatchesCurrentMessage, matchInputData, hasMatchers, Stub.isClientStream,
    Stub.isUnary, Stub.isServerStream, bidiPickStep, rankMatchV2, rankHeaders,
    rankInput, rankStreamElements, effectiveLen, InputHeader.len,
    priorityMultiplier, trivialDeeply, sortStubsByID, insertByID]
  simp

/-- C8 amended: `Next` returns `ErrStubNotFound` (and no stub) for a `nil`
message, for a handle with empty service or method, and for a handle with
no available stubs; an empty non-nil message is not rejected. -/
theorem bidiNext_rejects_nil_and_empty_handle :
    (∀ (dp : Deeply) (sp : GoValue → String) (br : BidiState),
      bidiNext dp sp br none = (none, br))
    ∧ (∀ (dp : Deeply) (sp : GoValue → String) (br : BidiState) (msg : GoMap),
      br.service = "" ∨ br.method = "" →
      (bidiNext dp sp br (some msg)).1 = none)
    ∧ (∀ (dp : Deeply) (sp : GoValue → String) (br : BidiState) (msg : GoMap),
      br.allStubs = [] →
      (bidiNext dp sp br (some msg)).1 = none) := by
  refine ⟨fun dp sp br => rfl, ?_, ?_⟩
  · intro dp sp br msg h
    unfold bidiNext
    simp only [if_pos h]
  · intro dp sp br msg h
    obtain ⟨sv, mt, hd, al, cs, mi, fc⟩ := br
    simp only at h
    subst h
    unfold bidiNext
    cases hd <;> (simp only []; split_ifs <;> simp_all)

/-- Witness for the amended C8: the three rejection branches applied
concretely. -/
theorem bidiNext_rejects_nil_and_empty_handle_witness :
    bidiNext trivialDeeply trivialSprintf brC8 none = (none, brC8)
    ∧ (bidiNext trivialDeeply trivialSprintf ⟨"", "M", none, [stubC8], [], 0, true⟩
        (some [])).1 = none
    ∧ (bidiNext trivialDeeply trivialSprintf ⟨"S", "M", none, [], [], 0, true⟩
        (some [])).1 = none :=
  ⟨bidiNext_rejects_nil_and_empty_handle.1 trivialDeeply trivialSprintf brC8,
    bidiNext_rejects_nil_and_empty_handle.2.1 trivialDeeply trivialSprintf
      ⟨"", "M", none, [stubC8], [], 0, true⟩ [] (Or.inl rfl),
    bidiNext_rejects_nil_and_empty_handle.2.2 trivialDeeply trivialSprintf
      ⟨"S", "M", none, [], [], 0, true⟩ [] rfl⟩

end Stuber
